import Mathlib

/-!
Verification of the lite-orm object-persistence layer: a shallow embedding of
its value model, descriptor model, error translation, row execution layer and
transactional object engine, with theorems settling the specified properties.
-/

namespace LiteOrm

/-! ## Value and descriptor model (src/data.rs, src/object.rs) -/

/-- Model of the backend-assigned 64-bit identity (ObjectId wraps an i64).
No arithmetic is performed on identities, so they are embedded as integers. -/
abbrev ObjectId := Int

/-- DataType from src/data.rs: the closed set of column value types.
Constructor names are lowercased to avoid capturing the builtin type names. -/
inductive DataType where
  | string
  | bytes
  | int64
  | float64
  | bool
deriving DecidableEq, Repr

/-- DataType::name from src/data.rs; Display for DataType prints this name. -/
def DataType.name : DataType → String
  | DataType.string => "String"
  | DataType.bytes => "Bytes"
  | DataType.int64 => "Int64"
  | DataType.float64 => "Float64"
  | DataType.bool => "Bool"

/-- Model of an f64 double: finite values collapsed to their rational value
(so positive and negative zero coincide, as they do under IEEE equality),
signed infinities, and NaN. No float arithmetic occurs in the source; only
construction, destruction and equality comparison, which this model captures. -/
inductive F64 where
  | nan
  | fin (q : ℚ)
  | inf (neg : Bool)
deriving DecidableEq, Repr

/-- Rust == on f64 (IEEE 754 equality): NaN compares unequal to everything,
including itself; finite values compare by numeric value; infinities by sign. -/
def F64.beq : F64 → F64 → Bool
  | F64.fin a, F64.fin b => a == b
  | F64.inf a, F64.inf b => a == b
  | _, _ => false

/-- Value from src/data.rs: the tagged union crossing the row boundary.
Byte strings are modeled as lists of byte values. -/
inductive Value where
  | str (s : String)
  | bytes (b : List Nat)
  | int64 (i : Int)
  | float64 (f : F64)
  | bool (b : Bool)
deriving DecidableEq, Repr

/-- Value::data_type from src/data.rs. -/
def Value.data_type : Value → DataType
  | Value.str _ => DataType.string
  | Value.bytes _ => DataType.bytes
  | Value.int64 _ => DataType.int64
  | Value.float64 _ => DataType.float64
  | Value.bool _ => DataType.bool

/-- Value::sql_type from src/data.rs: the backend type description used in
UnexpectedType errors. -/
def Value.sql_type : Value → String
  | Value.str _ => "Text"
  | Value.bytes _ => "Blob"
  | Value.int64 _ => "Integer"
  | Value.bool _ => "Integer"
  | Value.float64 _ => "Real"

/-- Rust derived PartialEq on Value: fieldwise, with IEEE equality on the
Float64 payload. -/
def Value.rustBeq : Value → Value → Bool
  | Value.str a, Value.str b => a == b
  | Value.bytes a, Value.bytes b => a == b
  | Value.int64 a, Value.int64 b => a == b
  | Value.float64 a, Value.float64 b => F64.beq a b
  | Value.bool a, Value.bool b => a == b
  | _, _ => false

/-- A row: ordered values positionally aligned with a descriptor. -/
abbrev Row := List Value

/-- Schema from src/object.rs: the static per-record-type descriptor. -/
structure Schema where
  table_name : String
  type_name : String
  columns : List (String × DataType)
  attrs : List String
deriving DecidableEq, Repr

/-- Rust derived PartialEq on Schema: compares all four fields. -/
def Schema.rustBeq (a b : Schema) : Bool :=
  a.table_name == b.table_name && a.type_name == b.type_name
    && a.columns == b.columns && a.attrs == b.attrs

/-- The hand-written Hash impl on Schema from src/object.rs feeds only
table_name to the hasher; for an arbitrary string hasher h the resulting
hash value is h applied to the table name. -/
def Schema.hashWith (h : String → Nat) (s : Schema) : Nat :=
  h s.table_name

/-! ## ValueConvert impls (src/data.rs): to_value / from_value per native
type. from_value panics on a tag mismatch, modeled as Option.none. -/

/-- i64::to_value. -/
def i64_to_value (x : Int) : Value := Value.int64 x

/-- i64::from_value; none models the panic on a tag mismatch. -/
def i64_from_value : Value → Option Int
  | Value.int64 i => some i
  | _ => none

/-- f64::to_value. -/
def f64_to_value (x : F64) : Value := Value.float64 x

/-- f64::from_value; none models the panic on a tag mismatch. -/
def f64_from_value : Value → Option F64
  | Value.float64 f => some f
  | _ => none

/-- bool::to_value. -/
def bool_to_value (x : Bool) : Value := Value.bool x

/-- bool::from_value; none models the panic on a tag mismatch. -/
def bool_from_value : Value → Option Bool
  | Value.bool b => some b
  | _ => none

/-- String::to_value. -/
def string_to_value (x : String) : Value := Value.str x

/-- String::from_value; none models the panic on a tag mismatch. -/
def string_from_value : Value → Option String
  | Value.str s => some s
  | _ => none

/-- Vec of u8 to_value. -/
def bytes_to_value (x : List Nat) : Value := Value.bytes x

/-- Vec of u8 from_value; none models the panic on a tag mismatch. -/
def bytes_from_value : Value → Option (List Nat)
  | Value.bytes b => some b
  | _ => none

/-! ## Error model (src/error.rs) -/

/-- Model of rusqlite::Error restricted to the shapes the source inspects:
no-rows, invalid column type, a sqlite failure with a busy flag (code equal
to DatabaseBusy) and an optional message, and any other backend failure. -/
inductive RusqliteError where
  | queryReturnedNoRows
  | invalidColumnType (idx : Nat) (nm : String) (ty : String)
  | sqliteFailure (busy : Bool) (msg : Option String)
  | otherFailure (desc : String)
deriving DecidableEq, Repr

/-- Error from src/error.rs: the closed domain error taxonomy. -/
inductive Error where
  | notFound (object_id : Int) (type_name : String)
  | unexpectedType (type_name attr_name table_name column_name : String)
      (expected_type : DataType) (got_type : String)
  | missingColumn (type_name attr_name table_name column_name : String)
  | lockConflict
  | storage (cause : RusqliteError)
deriving DecidableEq, Repr

/-- ErrorCtx from src/error.rs: the optional context bundle. -/
structure ErrorCtx where
  object_id : Option Int := none
  type_name : Option String := none
  attr_name : Option String := none
  table_name : Option String := none
  column_name : Option String := none
  expected_type : Option DataType := none
  got_type : Option String := none
deriving DecidableEq, Repr

/-- ErrorCtx::default. -/
def ErrorCtx.deflt : ErrorCtx := {}

/-- ErrorCtx::not_found. -/
def ErrorCtx.not_found (id : Int) (tn : String) : ErrorCtx :=
  { object_id := some id, type_name := some tn }

/-- Rust str::contains on concrete strings, via splitOn: the pattern occurs
in s exactly when splitting s on it yields more than one piece. -/
def strContains (s pat : String) : Bool :=
  (s.splitOn pat).length != 1

/-- Whether a sqlite failure message names a missing column, per the two
patterns the source matches. -/
def msgMentionsMissingColumn : Option String → Bool
  | some t => strContains t "no such column:" || strContains t "has no column named"
  | none => false

/-- The column-name extraction in src/storage.rs: text after the pattern,
trimmed. -/
def parseMissingColumn (text : String) : String :=
  if strContains text "no such column:" then
    ((text.splitOn "no such column:").getLastD "").trim
  else
    ((text.splitOn "has no column named").getLastD "").trim

/-- The From impl for ErrorWithCtx over rusqlite::Error in src/error.rs.
Returns none where the source panics: context unwraps on missing fields,
and the catch-all arm, which is an unimplemented macro invocation rather
than a Storage wrap. Match order follows the source: the busy code is
checked before the missing-column message patterns. -/
def errorFromCtx (ctx : ErrorCtx) (e : RusqliteError) : Option Error :=
  match e with
  | RusqliteError.queryReturnedNoRows =>
    match ctx.object_id, ctx.type_name with
    | some id, some tn => some (Error.notFound id tn)
    | _, _ => none
  | RusqliteError.invalidColumnType _ _ _ =>
    match ctx.type_name, ctx.attr_name, ctx.table_name, ctx.column_name,
        ctx.expected_type, ctx.got_type with
    | some tn, some an, some tbl, some cn, some ety, some gt =>
      some (Error.unexpectedType tn an tbl cn ety gt)
    | _, _, _, _, _, _ => none
  | RusqliteError.sqliteFailure true _ => some Error.lockConflict
  | RusqliteError.sqliteFailure false msg =>
    if msgMentionsMissingColumn msg then
      match ctx.type_name, ctx.attr_name, ctx.table_name, ctx.column_name with
      | some tn, some an, some tbl, some cn =>
        some (Error.missingColumn tn an tbl cn)
      | _, _, _, _ => none
    else none
  | RusqliteError.otherFailure _ => none

/-! ## Row execution layer (src/storage.rs) -/

/-- error_by_scheme from src/storage.rs: attaches descriptor-derived context
to a raw backend failure, then runs the translator. Returns none where the
source panics (out-of-range column index, or a missing-column message naming
a column absent from the descriptor, or an unmapped failure kind downstream). -/
def error_by_scheme (schema : Schema) (e : RusqliteError) (id : Int) : Option Error :=
  match e with
  | RusqliteError.queryReturnedNoRows =>
    errorFromCtx (ErrorCtx.not_found id schema.type_name) e
  | RusqliteError.invalidColumnType i _ ty =>
    match schema.attrs.get? i, schema.columns.get? i with
    | some attr, some col =>
      errorFromCtx
        { table_name := some schema.table_name
          type_name := some schema.type_name
          attr_name := some attr
          column_name := some col.1
          expected_type := some col.2
          got_type := some ty } e
    | _, _ => none
  | RusqliteError.sqliteFailure _ msg =>
    if msgMentionsMissingColumn msg then
      match msg with
      | none => none
      | some text =>
        let columnName := parseMissingColumn text
        match schema.columns.findIdx? (fun c => c.1 == columnName) with
        | some pos =>
          errorFromCtx
            { table_name := some schema.table_name
              type_name := some schema.type_name
              column_name := (schema.columns.get? pos).map Prod.fst
              attr_name := schema.attrs.get? pos } e
        | none => none
    else errorFromCtx ErrorCtx.deflt e
  | _ => errorFromCtx ErrorCtx.deflt e

/-- table_exists from src/storage.rs: runs an existence query against the
backend catalog and reports whether it succeeded; the query result (success
or any backend failure) is the argument. Any failure is mapped to a
successful false answer by is_ok. -/
def table_exists (q : Except RusqliteError Unit) : Except Error Bool :=
  Except.ok (match q with
    | Except.ok _ => true
    | Except.error _ => false)

/-- Outcome of a fallible model operation: success, a recoverable domain
error, or an abnormal termination (panic) of the process. -/
inductive Outcome (α : Type) where
  | ok (a : α)
  | fail (e : Error)
  | panicked
deriving DecidableEq, Repr

/-- map_err through error_by_scheme, as every storage operation does. -/
def liftErr {α : Type} (schema : Schema) (id : Int) :
    Except RusqliteError α → Outcome α
  | Except.ok a => Outcome.ok a
  | Except.error e =>
    match error_by_scheme schema e id with
    | some err => Outcome.fail err
    | none => Outcome.panicked

/-- A backend table state: rows keyed by identity. -/
abbrev Table := List (Int × Row)

/-- The model of the query generated by row_exists (SELECT 1 filtered by
identity) executed against a table state: the backend reports
QueryReturnedNoRows when no row carries the identity. -/
def query_row_exists (tbl : Table) (id : Int) : Except RusqliteError Unit :=
  if tbl.any (fun r => r.1 == id) then Except.ok ()
  else Except.error RusqliteError.queryReturnedNoRows

/-- row_exists from src/storage.rs. -/
def row_exists (tbl : Table) (id : Int) (schema : Schema) : Outcome Unit :=
  liftErr schema id (query_row_exists tbl id)

/-- convert_by_schema loop body from src/storage.rs, carrying the column
index. Iteration covers the columns zipped with the read values, stopping
at the shorter list like the source iterator pair; an accepted value is
pushed unchanged, a declared Bool over a read Int64 of 0 or 1 is coerced,
and any other mismatch aborts with an UnexpectedType error built from the
descriptor (the attribute index uses a default on misalignment where the
source would panic; theorems assume aligned descriptors). -/
def convertGo (schema : Schema) :
    Nat → List (String × DataType) → List Value → Except Error (List Value)
  | _, [], _ => Except.ok []
  | _, _ :: _, [] => Except.ok []
  | i, (cn, ty) :: cols, v :: vs =>
    if v.data_type = ty then
      (convertGo schema (i + 1) cols vs).map (fun r => v :: r)
    else
      match ty, v with
      | DataType.bool, Value.int64 n =>
        if 0 ≤ n ∧ n ≤ 1 then
          (convertGo schema (i + 1) cols vs).map (fun r => Value.bool (n != 0) :: r)
        else
          Except.error (Error.unexpectedType schema.type_name
            (schema.attrs.getD i "") schema.table_name cn ty v.sql_type)
      | _, _ =>
        Except.error (Error.unexpectedType schema.type_name
          (schema.attrs.getD i "") schema.table_name cn ty v.sql_type)

/-- convert_by_schema from src/storage.rs: the type reconciliation pass. -/
def convert_by_schema (val : Row) (schema : Schema) : Except Error Row :=
  convertGo schema 0 schema.columns val

/-- Row lookup by identity in a table state. -/
def lookupRow (tbl : Table) (id : Int) : Option Row :=
  (tbl.find? (fun r => r.1 == id)).map (fun r => r.2)

/-- select_row from src/storage.rs executed against a table state: with no
columns it degrades to the existence check returning an empty row; otherwise
it reads the stored row (QueryReturnedNoRows when absent, translated by
error_by_scheme) and runs it through convert_by_schema. -/
def select_row (tbl : Table) (id : Int) (schema : Schema) : Outcome Row :=
  if schema.columns.isEmpty then
    match row_exists tbl id schema with
    | Outcome.ok _ => Outcome.ok []
    | Outcome.fail e => Outcome.fail e
    | Outcome.panicked => Outcome.panicked
  else
    match lookupRow tbl id with
    | none => liftErr schema id (Except.error RusqliteError.queryReturnedNoRows)
    | some r =>
      match convert_by_schema r schema with
      | Except.ok out => Outcome.ok out
      | Except.error e => Outcome.fail e

/-- update_row from src/storage.rs executed against a table state: with no
columns it degrades to the existence check; otherwise it executes the
generated UPDATE, which per SQL semantics sets every column positionally on
rows matching the identity and succeeds even when zero rows match. -/
def update_row (tbl : Table) (id : Int) (schema : Schema) (row : Row) :
    Outcome Table :=
  if schema.columns.isEmpty then
    match row_exists tbl id schema with
    | Outcome.ok _ => Outcome.ok tbl
    | Outcome.fail e => Outcome.fail e
    | Outcome.panicked => Outcome.panicked
  else
    Outcome.ok (tbl.map (fun r => if r.1 = id then (r.1, row) else r))

/-- delete_row from src/storage.rs executed against a table state: the
generated DELETE removes the rows matching the identity and succeeds
regardless of how many rows matched. -/
def delete_row (tbl : Table) (id : Int) (schema : Schema) : Outcome Table :=
  Outcome.ok (tbl.filter (fun r => r.1 != id))

/-- create_table from src/storage.rs: the CREATE statement text, built as in
the source by joining an implicit identity column clause with one clause per
descriptor column, the type rendered through Display for DataType. -/
def create_table_sql (schema : Schema) : String :=
  "CREATE TABLE " ++ schema.table_name ++ " ("
    ++ String.intercalate ", "
      ("id INTEGER PRIMARY KEY AUTOINCREMENT"
        :: schema.columns.map (fun c => c.1 ++ " " ++ (c.2).name))
    ++ ")"

/-! ## Spec-side reference definitions (refinement comparisons) -/

/-- Reference per-column reconciliation following the words of the spec: a
value whose tag matches the declared type is accepted as-is; a declared Bool
over a read Int64 of value 0 or 1 is coerced to false or true respectively;
anything else is rejected. -/
def reconcile1 (ty : DataType) (v : Value) : Option Value :=
  if v.data_type = ty then some v
  else
    match ty, v with
    | DataType.bool, Value.int64 n =>
      if n = 0 then some (Value.bool false)
      else if n = 1 then some (Value.bool true)
      else none
    | _, _ => none

/-- Reference reconciliation pass following the words of the spec, over the
columns zipped with the read values: each column reconciled by reconcile1,
the first failing column producing an UnexpectedType error identifying the
offending column, attribute, table, and both the expected and actual type. -/
def reconcileSpec (schema : Schema) :
    Nat → List ((String × DataType) × Value) → Except Error (List Value)
  | _, [] => Except.ok []
  | i, ((cn, ty), v) :: rest =>
    match reconcile1 ty v with
    | some w => (reconcileSpec schema (i + 1) rest).map (fun r => w :: r)
    | none =>
      Except.error (Error.unexpectedType schema.type_name
        (schema.attrs.getD i "") schema.table_name cn ty v.sql_type)

/-- The value-type-to-backend-type mapping claimed by the spec for CREATE
statements: String to text, Bytes to blob, Int64 and Bool to integer,
Float64 to real. -/
def specSqlType : DataType → String
  | DataType.string => "text"
  | DataType.bytes => "blob"
  | DataType.int64 => "integer"
  | DataType.float64 => "real"
  | DataType.bool => "integer"

/-- The CREATE statement as the claim describes it: identity column first,
then one clause per descriptor entry typed per the spec mapping. -/
def spec_create_table_sql (schema : Schema) : String :=
  "CREATE TABLE " ++ schema.table_name ++ " ("
    ++ String.intercalate ", "
      ("id INTEGER PRIMARY KEY AUTOINCREMENT"
        :: schema.columns.map (fun c => c.1 ++ " " ++ specSqlType c.2))
    ++ ")"

/-- Column clauses as the amended claim describes them, built by direct
recursion over the descriptor entries in declared order, each typed by the
value type name that Display for DataType yields. -/
def specColumnClauses : List (String × DataType) → List String
  | [] => []
  | (n, ty) :: rest => (n ++ " " ++ ty.name) :: specColumnClauses rest

/-- The CREATE statement per the amended claim: one implicit
auto-incrementing identity column followed by one clause per descriptor
entry in declared order, typed by the value type name. -/
def spec_create_table_sql_amended (schema : Schema) : String :=
  "CREATE TABLE " ++ schema.table_name ++ " ("
    ++ String.intercalate ", "
      ("id INTEGER PRIMARY KEY AUTOINCREMENT" :: specColumnClauses schema.columns)
    ++ ")"

/-! ## A representative derived record type (src/orm-derive/src/lib.rs)

The derive macro generates, for each struct, a schema plus from_row and
to_row implementations: to_row lists each field converted by to_value in
declaration order, and from_row rebuilds each field by indexing the row
positionally and converting back. User below instantiates that expansion
for a struct with one field of every supported native type. -/

structure User where
  name : String
  payload : List Nat
  n : Int
  x : F64
  flag : Bool
deriving DecidableEq, Repr

/-- to_row as the derive macro expands it for User. -/
def User.to_row (u : User) : Row :=
  [string_to_value u.name, bytes_to_value u.payload, i64_to_value u.n,
    f64_to_value u.x, bool_to_value u.flag]

/-- from_row as the derive macro expands it for User: each field is the
positional row element run through from_value; an out-of-range index or a
tag mismatch panics, modeled as none. -/
def User.from_row (row : Row) : Option User := do
  let name ← (← row.get? 0) |> string_from_value
  let payload ← (← row.get? 1) |> bytes_from_value
  let n ← (← row.get? 2) |> i64_from_value
  let x ← (← row.get? 3) |> f64_from_value
  let flag ← (← row.get? 4) |> bool_from_value
  pure (User.mk name payload n x flag)

/-- Rust derived PartialEq on User: fieldwise, with IEEE equality on the
f64 field. -/
def User.rustBeq (a b : User) : Bool :=
  a.name == b.name && a.payload == b.payload && a.n == b.n
    && F64.beq a.x b.x && a.flag == b.flag

/-! ## Transactional object engine (src/transaction.rs)

The engine is generic over a boxed StorageTransaction trait object; the
model is correspondingly parametric in a Backend of response functions, one
per trait method. Every call the engine makes on the backend is recorded in
a trace, the write-count probe the spec itself proposes. Rc-shared record
slots are modeled by a cell store: the identity map binds each tracked key
to a cell index, handles carry the same index, and all reads and writes go
through the store, so aliasing is by construction the sharing of an index.
The dynamically typed record slot is modeled by the record row image. -/

/-- ObjectState from src/transaction.rs. -/
inductive ObjectState where
  | Clean
  | Modified
  | Removed
deriving DecidableEq, Repr

/-- One backend call as recorded in the trace. -/
inductive BOp where
  | tableExistsOp (nm : String)
  | createTableOp (schema : Schema)
  | insertOp (schema : Schema) (row : Row)
  | updateOp (id : Int) (schema : Schema) (row : Row)
  | selectOp (id : Int) (schema : Schema)
  | deleteOp (id : Int) (schema : Schema)
  | commitOp
  | rollbackOp
deriving DecidableEq, Repr

/-- A StorageTransaction implementation: one response function per trait
method, as the engine sees through the boxed trait object. -/
structure Backend where
  table_exists : String → Except Error Bool
  create_table : Schema → Except Error Unit
  insert_row : Schema → Row → Except Error Int
  update_row : Int → Schema → Row → Except Error Unit
  select_row : Int → Schema → Except Error Row
  delete_row : Int → Schema → Except Error Unit
  commitB : Except Error Unit
  rollbackB : Except Error Unit

/-- The transaction state: the cell store of Rc-shared record slots with
their lifecycle states, the identity map from (descriptor, identity) to a
cell index, and the trace of backend calls issued so far. -/
structure TxM where
  cells : List (Row × ObjectState)
  objects : List ((Schema × Int) × Nat)
  trace : List BOp
deriving DecidableEq, Repr

/-- A typed handle (Tx): the identity it was obtained for and the shared
cell it aliases. -/
structure Handle where
  id : Int
  cell : Nat
deriving DecidableEq, Repr

/-- Identity map lookup; key equality is the derived full structural
equality on Schema paired with the identity. -/
def lookupObj (objects : List ((Schema × Int) × Nat)) (sch : Schema) (i : Int) :
    Option Nat :=
  (objects.find? (fun p => p.1 = (sch, i))).map (fun p => p.2)

/-- HashMap::insert semantics on the identity map: replace the binding for
the key when present, append otherwise. -/
def insertObj (objects : List ((Schema × Int) × Nat)) (key : Schema × Int)
    (k : Nat) : List ((Schema × Int) × Nat) :=
  if objects.any (fun p => p.1 = key) then
    objects.map (fun p => if p.1 = key then (p.1, k) else p)
  else objects ++ [(key, k)]

/-- The record slot of a cell (empty row default on a dangling index). -/
def cellObj (t : TxM) (k : Nat) : Row :=
  (t.cells.getD k ([], ObjectState.Clean)).1

/-- The lifecycle state of a cell (Clean default on a dangling index). -/
def cellState (t : TxM) (k : Nat) : ObjectState :=
  (t.cells.getD k ([], ObjectState.Clean)).2

/-- Overwrite the lifecycle state of a cell. -/
def setCellState (t : TxM) (k : Nat) (st : ObjectState) : TxM :=
  { t with cells := t.cells.set k (cellObj t k, st) }

/-- Issue table_exists on the backend, recording the call. -/
def callTableExists (B : Backend) (nm : String) (t : TxM) : TxM × Outcome Bool :=
  let t1 := { t with trace := t.trace ++ [BOp.tableExistsOp nm] }
  match B.table_exists nm with
  | Except.ok b => (t1, Outcome.ok b)
  | Except.error e => (t1, Outcome.fail e)

/-- Issue create_table on the backend, recording the call. -/
def callCreateTable (B : Backend) (sch : Schema) (t : TxM) : TxM × Outcome Unit :=
  let t1 := { t with trace := t.trace ++ [BOp.createTableOp sch] }
  match B.create_table sch with
  | Except.ok _ => (t1, Outcome.ok ())
  | Except.error e => (t1, Outcome.fail e)

/-- Issue insert_row on the backend, recording the call. -/
def callInsert (B : Backend) (sch : Schema) (row : Row) (t : TxM) :
    TxM × Outcome Int :=
  let t1 := { t with trace := t.trace ++ [BOp.insertOp sch row] }
  match B.insert_row sch row with
  | Except.ok i => (t1, Outcome.ok i)
  | Except.error e => (t1, Outcome.fail e)

/-- Issue update_row on the backend, recording the call. -/
def callUpdate (B : Backend) (i : Int) (sch : Schema) (row : Row) (t : TxM) :
    TxM × Outcome Unit :=
  let t1 := { t with trace := t.trace ++ [BOp.updateOp i sch row] }
  match B.update_row i sch row with
  | Except.ok _ => (t1, Outcome.ok ())
  | Except.error e => (t1, Outcome.fail e)

/-- Issue select_row on the backend, recording the call. -/
def callSelect (B : Backend) (i : Int) (sch : Schema) (t : TxM) :
    TxM × Outcome Row :=
  let t1 := { t with trace := t.trace ++ [BOp.selectOp i sch] }
  match B.select_row i sch with
  | Except.ok r => (t1, Outcome.ok r)
  | Except.error e => (t1, Outcome.fail e)

/-- Issue delete_row on the backend, recording the call. -/
def callDelete (B : Backend) (i : Int) (sch : Schema) (t : TxM) :
    TxM × Outcome Unit :=
  let t1 := { t with trace := t.trace ++ [BOp.deleteOp i sch] }
  match B.delete_row i sch with
  | Except.ok _ => (t1, Outcome.ok ())
  | Except.error e => (t1, Outcome.fail e)

/-- Issue commit on the backend, recording the call. -/
def callCommit (B : Backend) (t : TxM) : TxM × Outcome Unit :=
  let t1 := { t with trace := t.trace ++ [BOp.commitOp] }
  match B.commitB with
  | Except.ok _ => (t1, Outcome.ok ())
  | Except.error e => (t1, Outcome.fail e)

/-- Issue rollback on the backend, recording the call. -/
def callRollback (B : Backend) (t : TxM) : TxM × Outcome Unit :=
  let t1 := { t with trace := t.trace ++ [BOp.rollbackOp] }
  match B.rollbackB with
  | Except.ok _ => (t1, Outcome.ok ())
  | Except.error e => (t1, Outcome.fail e)

/-- Transaction::ensure_table: existence check, then creation when absent. -/
def Transaction.ensure_table (B : Backend) (sch : Schema) (t : TxM) :
    TxM × Outcome Unit :=
  match callTableExists B sch.table_name t with
  | (t1, Outcome.ok ex) =>
    if ex then (t1, Outcome.ok ()) else callCreateTable B sch t1
  | (t1, Outcome.fail e) => (t1, Outcome.fail e)
  | (t1, Outcome.panicked) => (t1, Outcome.panicked)

/-- Transaction::create: ensure the table, insert the record row, then track
a fresh Clean cell under the backend-assigned identity and hand back a
handle over it. -/
def Transaction.create (B : Backend) (sch : Schema) (row : Row) (t : TxM) :
    TxM × Outcome Handle :=
  match Transaction.ensure_table B sch t with
  | (t1, Outcome.ok _) =>
    match callInsert B sch row t1 with
    | (t2, Outcome.ok i) =>
      let k := t2.cells.length
      ({ t2 with
          cells := t2.cells ++ [(row, ObjectState.Clean)]
          objects := insertObj t2.objects (sch, i) k },
        Outcome.ok (Handle.mk i k))
    | (t2, Outcome.fail e) => (t2, Outcome.fail e)
    | (t2, Outcome.panicked) => (t2, Outcome.panicked)
  | (t1, Outcome.fail e) => (t1, Outcome.fail e)
  | (t1, Outcome.panicked) => (t1, Outcome.panicked)

/-- Transaction::get: ensure the table; on a tracked entry, fail with
NotFound when its state is Removed and otherwise share the existing cell
without touching the backend (the downcast check always succeeds in this
single-representation model); on an untracked identity, select the row from
the backend and track a fresh Clean cell. -/
def Transaction.get (B : Backend) (sch : Schema) (i : Int) (t : TxM) :
    TxM × Outcome Handle :=
  match Transaction.ensure_table B sch t with
  | (t1, Outcome.ok _) =>
    match lookupObj t1.objects sch i with
    | some k =>
      if cellState t1 k = ObjectState.Removed then
        (t1, Outcome.fail (Error.notFound i sch.type_name))
      else (t1, Outcome.ok (Handle.mk i k))
    | none =>
      match callSelect B i sch t1 with
      | (t2, Outcome.ok row) =>
        let k := t2.cells.length
        ({ t2 with
            cells := t2.cells ++ [(row, ObjectState.Clean)]
            objects := t2.objects ++ [((sch, i), k)] },
          Outcome.ok (Handle.mk i k))
      | (t2, Outcome.fail e) => (t2, Outcome.fail e)
      | (t2, Outcome.panicked) => (t2, Outcome.panicked)
  | (t1, Outcome.fail e) => (t1, Outcome.fail e)
  | (t1, Outcome.panicked) => (t1, Outcome.panicked)

/-- Tx::state. -/
def Tx.state (t : TxM) (h : Handle) : ObjectState :=
  cellState t h.cell

/-- Tx::borrow: read access through a handle; panics when the shared entry
is Removed. -/
def Tx.borrow (t : TxM) (h : Handle) : Outcome Row :=
  if Tx.state t h = ObjectState.Removed then Outcome.panicked
  else Outcome.ok (cellObj t h.cell)

/-- Tx::borrow_mut: unconditionally transitions the shared entry to
Modified as a side effect, then yields mutable access to the record slot. -/
def Tx.borrow_mut (t : TxM) (h : Handle) : TxM × Row :=
  (setCellState t h.cell ObjectState.Modified, cellObj t h.cell)

/-- An in-memory edit made through a handle: borrow_mut followed by an
assignment through the yielded mutable reference. -/
def Tx.write (t : TxM) (h : Handle) (v : Row) : TxM :=
  let t1 := (Tx.borrow_mut t h).1
  { t1 with cells := t1.cells.set h.cell (v, ObjectState.Modified) }

/-- Tx::delete: transitions the shared entry to Removed. The guarding
try_borrow_mut always succeeds in this sequential model, where no borrow
is outstanding across operations. -/
def Tx.delete (t : TxM) (h : Handle) : TxM :=
  setCellState t h.cell ObjectState.Removed

/-- The loop body of Transaction::try_apply over the tracked entries: a
Modified entry issues one update with the current record row, a Removed
entry issues one delete, a Clean entry issues nothing; the first backend
failure aborts the iteration. -/
def tryApplyGo (B : Backend) :
    List ((Schema × Int) × Nat) → TxM → TxM × Outcome Unit
  | [], t => (t, Outcome.ok ())
  | ((sch, i), k) :: rest, t =>
    match cellState t k with
    | ObjectState.Modified =>
      match callUpdate B i sch (cellObj t k) t with
      | (t1, Outcome.ok _) => tryApplyGo B rest t1
      | (t1, Outcome.fail e) => (t1, Outcome.fail e)
      | (t1, Outcome.panicked) => (t1, Outcome.panicked)
    | ObjectState.Removed =>
      match callDelete B i sch t with
      | (t1, Outcome.ok _) => tryApplyGo B rest t1
      | (t1, Outcome.fail e) => (t1, Outcome.fail e)
      | (t1, Outcome.panicked) => (t1, Outcome.panicked)
    | ObjectState.Clean => tryApplyGo B rest t

/-- Transaction::try_apply. -/
def Transaction.try_apply (B : Backend) (t : TxM) : TxM × Outcome Unit :=
  tryApplyGo B t.objects t

/-- Transaction::commit: flush dirty entries, then commit the backend
transaction only when every flush succeeded. -/
def Transaction.commit (B : Backend) (t : TxM) : TxM × Outcome Unit :=
  match Transaction.try_apply B t with
  | (t1, Outcome.ok _) => callCommit B t1
  | (t1, Outcome.fail e) => (t1, Outcome.fail e)
  | (t1, Outcome.panicked) => (t1, Outcome.panicked)

/-- Transaction::rollback: reset every tracked state to Clean, discard the
identity map, then roll back the backend transaction. The defensive
try_borrow_mut on each state cell always succeeds in this sequential model. -/
def Transaction.rollback (B : Backend) (t : TxM) : TxM × Outcome Unit :=
  let t1 := { t with
    cells := t.cells.map (fun c => (c.1, ObjectState.Clean))
    objects := [] }
  callRollback B t1

/-- The backend write that flushing one tracked entry issues, when any. -/
def flushCall (t : TxM) (e : (Schema × Int) × Nat) : Option BOp :=
  match cellState t e.2 with
  | ObjectState.Modified => some (BOp.updateOp e.1.2 e.1.1 (cellObj t e.2))
  | ObjectState.Removed => some (BOp.deleteOp e.1.2 e.1.1)
  | ObjectState.Clean => none

/-- The full flush sequence commit would issue for the tracked entries. -/
def flushOps (t : TxM) : List BOp :=
  t.objects.filterMap (flushCall t)

/-! ## Concrete fixtures used by witnesses and counterexamples -/

/-- A one-column Int64 descriptor. -/
def sch0 : Schema := Schema.mk "t" "T" [("n", DataType.int64)] ["n"]

/-- A backend whose responses all succeed. -/
def B0 : Backend :=
  { table_exists := fun _ => Except.ok true
    create_table := fun _ => Except.ok ()
    insert_row := fun _ _ => Except.ok 1
    update_row := fun _ _ _ => Except.ok ()
    select_row := fun _ _ => Except.ok [Value.int64 7]
    delete_row := fun _ _ => Except.ok ()
    commitB := Except.ok ()
    rollbackB := Except.ok () }

/-- A transaction tracking identity 1 in a Clean cell. -/
def t0 : TxM := TxM.mk [([Value.int64 7], ObjectState.Clean)] [((sch0, 1), 0)] []

/-- A transaction tracking identity 1 in a Removed cell. -/
def t1r : TxM := TxM.mk [([Value.int64 7], ObjectState.Removed)] [((sch0, 1), 0)] []

/-- A transaction tracking a Clean, a Modified and a Removed entry. -/
def tc : TxM :=
  TxM.mk
    [([Value.int64 7], ObjectState.Clean),
      ([Value.int64 8], ObjectState.Modified),
      ([Value.int64 9], ObjectState.Removed)]
    [((sch0, 1), 0), ((sch0, 2), 1), ((sch0, 3), 2)] []

/-! ## Helper lemmas -/

theorem F64.beq_self_of_ne_nan (x : F64) (h : x ≠ F64.nan) : F64.beq x x = true := by
  cases x with
  | nan => exact absurd rfl h
  | fin q => simp [F64.beq]
  | inf b => simp [F64.beq]

theorem specColumnClauses_eq_map (l : List (String × DataType)) :
    specColumnClauses l = l.map (fun c => c.1 ++ " " ++ (c.2).name) := by
  induction l with
  | nil => rfl
  | cons hd tl ih => simp [specColumnClauses, ih]

/-! ## C6: the CREATE statement -/

/-- C6 (corrected): create_table emits a CREATE statement with one implicit
auto-incrementing identity column followed by one column per descriptor
entry in declared order, where each column is typed by the value type name
that Display for DataType yields (String, Bytes, Int64, Float64, Bool), not
by the text/blob/integer/real mapping the claim states. -/
theorem c6_create_table_statement (schema : Schema) :
    create_table_sql schema = spec_create_table_sql_amended schema := by
  unfold create_table_sql spec_create_table_sql_amended
  rw [specColumnClauses_eq_map]

/-- C6 counterexample: for a single Bool column the emitted statement types
the column as Bool, while the claimed mapping would type it as integer; the
two statements differ. -/
theorem c6_counterexample :
    create_table_sql (Schema.mk "t" "T" [("flag", DataType.bool)] ["flag"])
        = "CREATE TABLE t (id INTEGER PRIMARY KEY AUTOINCREMENT, flag Bool)" ∧
      spec_create_table_sql (Schema.mk "t" "T" [("flag", DataType.bool)] ["flag"])
        = "CREATE TABLE t (id INTEGER PRIMARY KEY AUTOINCREMENT, flag integer)" ∧
      create_table_sql (Schema.mk "t" "T" [("flag", DataType.bool)] ["flag"])
        ≠ spec_create_table_sql (Schema.mk "t" "T" [("flag", DataType.bool)] ["flag"]) := by
  refine ⟨rfl, rfl, ?_⟩
  decide

/-! ## C7: update_row degradation and missing rows -/

/-- C7 (corrected): with zero declared columns update_row degrades to an
existence check, failing with NotFound exactly when no row carries the
identity; with declared columns it executes the generated UPDATE, which sets
every column positionally on the matching row and succeeds even when no row
matches (zero rows affected), rather than failing with NotFound. -/
theorem c7_update_row_behavior (tbl : Table) (id : Int) (schema : Schema) (row : Row) :
    (schema.columns = [] →
      ((tbl.any (fun r => r.1 == id)) = false →
        update_row tbl id schema row = Outcome.fail (Error.notFound id schema.type_name)) ∧
      ((tbl.any (fun r => r.1 == id)) = true →
        update_row tbl id schema row = Outcome.ok tbl)) ∧
    (schema.columns ≠ [] →
      update_row tbl id schema row =
        Outcome.ok (tbl.map (fun r => if r.1 = id then (r.1, row) else r))) := by
  constructor
  · intro hc
    have hE : schema.columns.isEmpty = true := by simp [hc]
    constructor
    · intro habs
      simp [update_row, hE, row_exists, liftErr, query_row_exists, habs,
        error_by_scheme, errorFromCtx, ErrorCtx.not_found]
    · intro hpres
      simp [update_row, hE, row_exists, liftErr, query_row_exists, hpres]
  · intro hc
    have hE : schema.columns.isEmpty = false := by
      cases h : schema.columns with
      | nil => exact absurd h hc
      | cons a l => simp [h]
    simp [update_row, hE]

/-- C7 witness: the zero-column existence check fails with NotFound on an
empty table. -/
theorem c7_update_row_behavior_witness :
    update_row ([] : Table) 3 (Schema.mk "t" "T" [] []) []
      = Outcome.fail (Error.notFound 3 "T") :=
  ((c7_update_row_behavior [] 3 (Schema.mk "t" "T" [] []) []).1 rfl).1 rfl

/-- C7 counterexample: with a declared column and no row of identity 5, the
claim requires NotFound, but update_row succeeds. -/
theorem c7_counterexample :
    update_row ([] : Table) 5 sch0 [Value.int64 1] = Outcome.ok [] := by
  decide

/-! ## C8: round-trip of values and records -/

/-- C8 (corrected): from_value is a structural left inverse of to_value for
every supported native type, and from_row reconstructs a record from its
to_row image structurally; under the Rust equality operator (IEEE equality
on f64) the round-trip equations hold for every input except f64 NaN, since
NaN is not equal to itself. -/
theorem c8_round_trip :
    (∀ x : Int, i64_from_value (i64_to_value x) = some x) ∧
    (∀ x : F64, f64_from_value (f64_to_value x) = some x) ∧
    (∀ x : Bool, bool_from_value (bool_to_value x) = some x) ∧
    (∀ x : String, string_from_value (string_to_value x) = some x) ∧
    (∀ x : List Nat, bytes_from_value (bytes_to_value x) = some x) ∧
    (∀ u : User, User.from_row (User.to_row u) = some u) ∧
    (∀ x : F64, F64.beq x x = true ↔ x ≠ F64.nan) ∧
    (∀ u : User, u.x ≠ F64.nan → User.rustBeq u u = true) := by
  refine ⟨fun x => rfl, fun x => rfl, fun x => rfl, fun x => rfl, fun x => rfl,
    fun u => rfl, fun x => ?_, fun u hx => ?_⟩
  · constructor
    · intro hb hn
      rw [hn] at hb
      simp [F64.beq] at hb
    · exact F64.beq_self_of_ne_nan x
  · simp [User.rustBeq, F64.beq_self_of_ne_nan u.x hx]

/-- C8 witness: the Rust-equality round trip holds at a concrete record with
a finite float field. -/
theorem c8_round_trip_witness :
    User.rustBeq (User.mk "a" [2] 1 (F64.fin 0) true)
      (User.mk "a" [2] 1 (F64.fin 0) true) = true :=
  c8_round_trip.2.2.2.2.2.2.2 (User.mk "a" [2] 1 (F64.fin 0) true) (by decide)

/-- C8 counterexample: at x equal to NaN the round trip reproduces NaN
structurally, yet the Rust equality comparison of the result with the input
is false, both at the value level and through a record with a NaN field. -/
theorem c8_counterexample :
    f64_from_value (f64_to_value F64.nan) = some F64.nan ∧
      F64.beq F64.nan F64.nan = false ∧
      User.from_row (User.to_row (User.mk "a" [] 0 F64.nan false))
        = some (User.mk "a" [] 0 F64.nan false) ∧
      User.rustBeq (User.mk "a" [] 0 F64.nan false) (User.mk "a" [] 0 F64.nan false)
        = false := by
  refine ⟨rfl, rfl, rfl, by decide⟩

/-! ## C9: descriptor equality and hashing -/

/-- C9 (corrected): the derived descriptor equality compares all four fields,
so it coincides with structural equality rather than table-name equality;
only the hand-written hash depends on the table name alone. -/
theorem c9_descriptor_keying (s1 s2 : Schema) :
    (Schema.rustBeq s1 s2 = true ↔ s1 = s2) ∧
      (∀ h : String → Nat, s1.table_name = s2.table_name →
        Schema.hashWith h s1 = Schema.hashWith h s2) := by
  constructor
  · cases s1
    cases s2
    simp [Schema.rustBeq, Schema.mk.injEq, and_assoc]
  · intro h he
    unfold Schema.hashWith
    rw [he]

/-- C9 witness: two descriptors sharing a table name hash alike under an
arbitrary concrete hasher. -/
theorem c9_descriptor_keying_witness :
    Schema.hashWith String.length (Schema.mk "t" "A" [] [])
      = Schema.hashWith String.length (Schema.mk "t" "B" [] []) :=
  (c9_descriptor_keying (Schema.mk "t" "A" [] []) (Schema.mk "t" "B" [] [])).2
    String.length rfl

/-- C9 counterexample: two descriptors with the same table name but distinct
type names are unequal under the derived equality, refuting equality by
table name alone. -/
theorem c9_counterexample :
    Schema.rustBeq (Schema.mk "t" "A" [] []) (Schema.mk "t" "B" [] []) = false ∧
      (Schema.mk "t" "A" [] ([] : List String)).table_name
        = (Schema.mk "t" "B" [] ([] : List String)).table_name := by
  decide

/-! ## C10: delete_row on missing rows -/

/-- C10 (confirmed): the generated DELETE succeeds for every identity and
descriptor; when no row carries the identity it succeeds leaving the table
unchanged, never reporting NotFound or any other error. -/
theorem c10_delete_row_total (tbl : Table) (id : Int) (schema : Schema) :
    (∃ t2, delete_row tbl id schema = Outcome.ok t2) ∧
      ((∀ r ∈ tbl, r.1 ≠ id) → delete_row tbl id schema = Outcome.ok tbl) := by
  constructor
  · exact ⟨_, rfl⟩
  · intro h
    unfold delete_row
    congr 1
    apply List.filter_eq_self.mpr
    intro r hr
    simpa using h r hr

/-- C10 witness: deleting identity 5 from a table holding only identity 2
succeeds and leaves the table unchanged. -/
theorem c10_delete_row_total_witness :
    delete_row [((2 : Int), [Value.int64 7])] 5 sch0
      = Outcome.ok [((2 : Int), [Value.int64 7])] :=
  (c10_delete_row_total [((2 : Int), [Value.int64 7])] 5 sch0).2 (by decide)

/-! ## C5: error propagation -/

theorem errorFromCtx_classified (ctx : ErrorCtx) (e : RusqliteError) (err : Error)
    (h : errorFromCtx ctx e = some err) :
    (∃ id tn, err = Error.notFound id tn) ∨
      (∃ tn an tbl cn ety gt, err = Error.unexpectedType tn an tbl cn ety gt) ∨
      (∃ tn an tbl cn, err = Error.missingColumn tn an tbl cn) ∨
      err = Error.lockConflict := by
  obtain ⟨oid, tnm, anm, tbn, cnm, ety, gt⟩ := ctx
  cases e with
  | queryReturnedNoRows =>
    cases oid <;> cases tnm <;> simp [errorFromCtx] at h
    exact Or.inl ⟨_, _, h.symm⟩
  | invalidColumnType i nm ty =>
    cases tnm <;> cases anm <;> cases tbn <;> cases cnm <;> cases ety <;> cases gt <;>
      simp [errorFromCtx] at h
    exact Or.inr (Or.inl ⟨_, _, _, _, _, _, h.symm⟩)
  | sqliteFailure busy msg =>
    cases busy with
    | true =>
      simp [errorFromCtx] at h
      exact Or.inr (Or.inr (Or.inr h.symm))
    | false =>
      by_cases hm : msgMentionsMissingColumn msg = true
      · cases tnm <;> cases anm <;> cases tbn <;> cases cnm <;>
          simp [errorFromCtx, hm] at h
        exact Or.inr (Or.inr (Or.inl ⟨_, _, _, _, h.symm⟩))
      · simp [errorFromCtx, hm] at h
  | otherFailure d => simp [errorFromCtx] at h

/-- C5 (corrected): every backend failure the translator accepts is
classified into NotFound, UnexpectedType, MissingColumn or LockConflict;
the Storage wrap is never produced (an unrecognized failure kind, or one
lacking the required context, aborts as a fatal contract violation instead,
modeled by the none result); and table_exists never propagates a backend
failure, answering a successful false instead. -/
theorem c5_error_propagation (ctx : ErrorCtx) (e : RusqliteError) :
    (∀ err, errorFromCtx ctx e = some err →
      (∃ id tn, err = Error.notFound id tn) ∨
      (∃ tn an tbl cn ety gt, err = Error.unexpectedType tn an tbl cn ety gt) ∨
      (∃ tn an tbl cn, err = Error.missingColumn tn an tbl cn) ∨
      err = Error.lockConflict) ∧
    (∀ cause, errorFromCtx ctx e ≠ some (Error.storage cause)) ∧
    (∀ q : Except RusqliteError Unit, table_exists q = Except.ok q.isOk) := by
  refine ⟨fun err h => errorFromCtx_classified ctx e err h, fun cause hc => ?_,
    fun q => by cases q <;> rfl⟩
  rcases errorFromCtx_classified ctx e _ hc with ⟨id, tn, h⟩ | ⟨a, b, c, d, f, g, h⟩
    | ⟨a, b, c, d, h⟩ | h <;> simp at h

/-- C5 witness: a no-rows failure with identity context is classified as
NotFound. -/
theorem c5_error_propagation_witness :
    (∃ id tn, Error.notFound 1 "T" = Error.notFound id tn) ∨
      (∃ tn an tbl cn ety gt,
        Error.notFound 1 "T" = Error.unexpectedType tn an tbl cn ety gt) ∨
      (∃ tn an tbl cn, Error.notFound 1 "T" = Error.missingColumn tn an tbl cn) ∨
      Error.notFound 1 "T" = Error.lockConflict :=
  (c5_error_propagation (ErrorCtx.not_found 1 "T") RusqliteError.queryReturnedNoRows).1
    (Error.notFound 1 "T") (by decide)

/-- C5 counterexample: an unmapped backend failure is not wrapped as Storage
but aborts (none models the unimplemented panic), and the same failure
during table_exists is reported as a successful false rather than an error. -/
theorem c5_counterexample :
    errorFromCtx ErrorCtx.deflt (RusqliteError.otherFailure "disk error") = none ∧
      table_exists (Except.error (RusqliteError.otherFailure "disk error"))
        = Except.ok false := by
  exact ⟨rfl, rfl⟩

/-! ## C4: type reconciliation -/

theorem convertGo_eq_reconcileSpec (schema : Schema) :
    ∀ (cols : List (String × DataType)) (vs : List Value) (i : Nat),
      convertGo schema i cols vs = reconcileSpec schema i (cols.zip vs) := by
  intro cols
  induction cols with
  | nil => intro vs i; cases vs <;> rfl
  | cons c rest ih =>
    intro vs i
    cases vs with
    | nil => rfl
    | cons v vtl =>
      obtain ⟨cn, ty⟩ := c
      by_cases hd : v.data_type = ty
      · simp [convertGo, reconcileSpec, reconcile1, hd, ih, List.zip]
      · cases ty with
        | bool =>
          cases v with
          | int64 n =>
            by_cases h0 : n = 0
            · simp [convertGo, reconcileSpec, reconcile1, Value.data_type, h0,
                ih, List.zip]
            · by_cases h1 : n = 1
              · simp [convertGo, reconcileSpec, reconcile1, Value.data_type, h1,
                  ih, List.zip]
              · have hno : ¬(0 ≤ n ∧ n ≤ 1) := by omega
                simp [convertGo, reconcileSpec, reconcile1, Value.data_type,
                  h0, h1, hno]
          | bool b => exact absurd rfl hd
          | str s =>
            simp [convertGo, reconcileSpec, reconcile1, Value.data_type]
          | bytes b =>
            simp [convertGo, reconcileSpec, reconcile1, Value.data_type]
          | float64 f =>
            simp [convertGo, reconcileSpec, reconcile1, Value.data_type]
        | string =>
          cases v <;>
            first
            | exact absurd rfl hd
            | simp [convertGo, reconcileSpec, reconcile1, Value.data_type]
        | bytes =>
          cases v <;>
            first
            | exact absurd rfl hd
            | simp [convertGo, reconcileSpec, reconcile1, Value.data_type]
        | int64 =>
          cases v <;>
            first
            | exact absurd rfl hd
            | simp [convertGo, reconcileSpec, reconcile1, Value.data_type]
        | float64 =>
          cases v <;>
            first
            | exact absurd rfl hd
            | simp [convertGo, reconcileSpec, reconcile1, Value.data_type]

/-- C4 (confirmed): the reconciliation pass of select_row equals the
spec-described per-column reconciliation — matching tags accepted unchanged,
a declared Bool over a read Int64 of 0 or 1 coerced to false or true, and
any other mismatch failing with an UnexpectedType error carrying the
offending column name, attribute name, table name, expected type and actual
type; select_row on a stored row surfaces exactly that result. -/
theorem c4_type_reconciliation (schema : Schema) (val : Row) :
    convert_by_schema val schema = reconcileSpec schema 0 (schema.columns.zip val) ∧
      (∀ (tbl : Table) (id : Int) (r : Row), schema.columns ≠ [] →
        lookupRow tbl id = some r →
        select_row tbl id schema =
          match reconcileSpec schema 0 (schema.columns.zip r) with
          | Except.ok out => Outcome.ok out
          | Except.error e => Outcome.fail e) := by
  constructor
  · exact convertGo_eq_reconcileSpec schema schema.columns val 0
  · intro tbl id r hc hr
    have hE : schema.columns.isEmpty = false := by
      cases h : schema.columns with
      | nil => exact absurd h hc
      | cons a l => simp [h]
    rw [select_row, hE, hr]
    simp only [Bool.false_eq_true, if_false]
    rw [convert_by_schema, convertGo_eq_reconcileSpec schema schema.columns r 0]
    rfl

/-- C4 witness: a stored Int64 value 1 under a Bool column is read back as
true by select_row. -/
theorem c4_type_reconciliation_witness :
    select_row [((1 : Int), [Value.int64 1])] 1
        (Schema.mk "t" "T" [("flag", DataType.bool)] ["flag"]) =
      match reconcileSpec (Schema.mk "t" "T" [("flag", DataType.bool)] ["flag"]) 0
          ((Schema.mk "t" "T" [("flag", DataType.bool)] ["flag"]).columns.zip
            [Value.int64 1]) with
      | Except.ok out => Outcome.ok out
      | Except.error e => Outcome.fail e :=
  (c4_type_reconciliation (Schema.mk "t" "T" [("flag", DataType.bool)] ["flag"])
      [Value.int64 1]).2
    [((1 : Int), [Value.int64 1])] 1 [Value.int64 1] (by decide) (by decide)

/-! ## Transaction engine lemmas -/

theorem ensure_table_shape (B : Backend) (sch : Schema) (t : TxM) :
    (Transaction.ensure_table B sch t).1.cells = t.cells ∧
      (Transaction.ensure_table B sch t).1.objects = t.objects ∧
      ∃ d, (Transaction.ensure_table B sch t).1.trace = t.trace ++ d ∧
        ∀ op ∈ d, op = BOp.tableExistsOp sch.table_name ∨ op = BOp.createTableOp sch := by
  unfold Transaction.ensure_table callTableExists callCreateTable
  cases B.table_exists sch.table_name with
  | ok b =>
    cases b with
    | true =>
      refine ⟨rfl, rfl, [BOp.tableExistsOp sch.table_name], rfl, ?_⟩
      simp
    | false =>
      cases B.create_table sch with
      | ok u =>
        refine ⟨rfl, rfl, [BOp.tableExistsOp sch.table_name, BOp.createTableOp sch],
          by simp, ?_⟩
        simp
      | error e =>
        refine ⟨rfl, rfl, [BOp.tableExistsOp sch.table_name, BOp.createTableOp sch],
          by simp, ?_⟩
        simp
  | error e =>
    refine ⟨rfl, rfl, [BOp.tableExistsOp sch.table_name], rfl, ?_⟩
    simp

theorem cellState_congr (t t2 : TxM) (h : t2.cells = t.cells) (k : Nat) :
    cellState t2 k = cellState t k := by
  unfold cellState
  rw [h]

theorem borrow_write_visible (t : TxM) (h1 h2 : Handle) (v : Row)
    (hc : h1.cell = h2.cell) (hlen : h2.cell < t.cells.length) :
    Tx.borrow (Tx.write t h1 v) h2 = Outcome.ok v := by
  unfold Tx.write Tx.borrow Tx.borrow_mut setCellState Tx.state cellState cellObj
  simp only [hc]
  simp [List.set_set, List.getElem?_set_self, hlen]

/-! ## C1: identity-map uniqueness -/

/-- C1 (confirmed): once an entry for (descriptor, identity) is tracked at a
cell, a subsequent get returns a handle over that same cell whenever it
returns a handle at all (failing only on a Removed entry), changes neither
the cell store nor the identity map, issues no backend select (the record is
not re-read), and an edit written through any handle over the cell is read
back by a borrow through any other handle over it. -/
theorem c1_identity_map_uniqueness (B : Backend) (sch : Schema) (i : Int)
    (k : Nat) (t : TxM)
    (htrack : lookupObj t.objects sch i = some k)
    (hlen : k < t.cells.length)
    (hex : (Transaction.ensure_table B sch t).2 = Outcome.ok ()) :
    (Transaction.get B sch i t).2 =
        (if cellState t k = ObjectState.Removed
          then Outcome.fail (Error.notFound i sch.type_name)
          else Outcome.ok (Handle.mk i k)) ∧
      (Transaction.get B sch i t).1.cells = t.cells ∧
      (Transaction.get B sch i t).1.objects = t.objects ∧
      (∃ d, (Transaction.get B sch i t).1.trace = t.trace ++ d ∧
        ∀ i2 s2, BOp.selectOp i2 s2 ∉ d) ∧
      (∀ (v : Row) (h1 h2 : Handle), h1.cell = k → h2.cell = k →
        Tx.borrow (Tx.write (Transaction.get B sch i t).1 h1 v) h2 = Outcome.ok v) := by
  obtain ⟨hc, ho, d0, htr, hd0⟩ := ensure_table_shape B sch t
  rcases het : Transaction.ensure_table B sch t with ⟨t1, r⟩
  rw [het] at hex hc ho htr
  simp only at hex hc ho htr
  unfold Transaction.get
  rw [het]
  have hr : r = Outcome.ok () := hex
  subst hr
  simp only [ho, htrack]
  have hcs : cellState t1 k = cellState t k := cellState_congr t t1 hc k
  by_cases hrem : cellState t k = ObjectState.Removed
  · have hrm1 : cellState t1 k = ObjectState.Removed := by rw [hcs, hrem]
    rw [if_pos hrm1, if_pos hrem]
    refine ⟨rfl, hc, ho, ⟨d0, htr, ?_⟩, ?_⟩
    · intro i2 s2 hmem
      rcases hd0 _ hmem with h | h <;> simp at h
    · intro v h1 h2 h1k h2k
      refine borrow_write_visible t1 h1 h2 v (by rw [h1k, h2k]) ?_
      rw [hc, h2k]
      exact hlen
  · have hrm1 : ¬ cellState t1 k = ObjectState.Removed := by rw [hcs]; exact hrem
    rw [if_neg hrm1, if_neg hrem]
    refine ⟨rfl, hc, ho, ⟨d0, htr, ?_⟩, ?_⟩
    · intro i2 s2 hmem
      rcases hd0 _ hmem with h | h <;> simp at h
    · intro v h1 h2 h1k h2k
      refine borrow_write_visible t1 h1 h2 v (by rw [h1k, h2k]) ?_
      rw [hc, h2k]
      exact hlen

/-- C1 witness: with identity 1 tracked Clean at cell 0, a repeated get
returns a handle over cell 0. -/
theorem c1_identity_map_uniqueness_witness :
    (Transaction.get B0 sch0 1 t0).2 =
        (if cellState t0 0 = ObjectState.Removed
          then Outcome.fail (Error.notFound 1 sch0.type_name)
          else Outcome.ok (Handle.mk 1 0)) ∧
      (Transaction.get B0 sch0 1 t0).1.cells = t0.cells :=
  ⟨(c1_identity_map_uniqueness B0 sch0 1 0 t0 (by decide) (by decide) (by decide)).1,
    (c1_identity_map_uniqueness B0 sch0 1 0 t0 (by decide) (by decide) (by decide)).2.1⟩

/-! ## C3: Removed within a transaction -/

theorem removed_in_range (t : TxM) (k : Nat)
    (hrm : cellState t k = ObjectState.Removed) : k < t.cells.length := by
  by_contra hge
  push_neg at hge
  have hnone : t.cells[k]? = none := by
    rw [List.getElem?_eq_none_iff]
    exact hge
  unfold cellState at hrm
  rw [List.getD_eq_getElem?_getD, hnone] at hrm
  simp at hrm

/-- C3 (corrected): once a tracked entry is Removed, get for its identity
fails with NotFound leaving the cell store and identity map unchanged, a
borrow through any handle over it fails, and delete leaves it Removed; but
borrow_mut performs no Removed check and unconditionally transitions the
entry back to Modified while yielding mutable access, so Removed is
terminal only with respect to get, borrow and delete. -/
theorem c3_removed_terminal (B : Backend) (sch : Schema) (i : Int)
    (k : Nat) (t : TxM)
    (htrack : lookupObj t.objects sch i = some k)
    (hrm : cellState t k = ObjectState.Removed)
    (hex : (Transaction.ensure_table B sch t).2 = Outcome.ok ()) :
    (Transaction.get B sch i t).2 = Outcome.fail (Error.notFound i sch.type_name) ∧
      (Transaction.get B sch i t).1.cells = t.cells ∧
      (Transaction.get B sch i t).1.objects = t.objects ∧
      (∀ h : Handle, h.cell = k →
        Tx.borrow t h = Outcome.panicked ∧
        Tx.state (Tx.delete t h) h = ObjectState.Removed ∧
        Tx.state (Tx.borrow_mut t h).1 h = ObjectState.Modified) := by
  have hlen : k < t.cells.length := removed_in_range t k hrm
  obtain ⟨hc, ho, d0, htr, hd0⟩ := ensure_table_shape B sch t
  rcases het : Transaction.ensure_table B sch t with ⟨t1, r⟩
  rw [het] at hex hc ho htr
  simp only at hex hc ho htr
  have hr : r = Outcome.ok () := hex
  subst hr
  refine ⟨?_, ?_, ?_, ?_⟩
  · unfold Transaction.get
    rw [het]
    simp only [ho, htrack]
    rw [if_pos (by rw [cellState_congr t t1 hc k, hrm])]
  · unfold Transaction.get
    rw [het]
    simp only [ho, htrack]
    rw [if_pos (by rw [cellState_congr t t1 hc k, hrm])]
    exact hc
  · unfold Transaction.get
    rw [het]
    simp only [ho, htrack]
    rw [if_pos (by rw [cellState_congr t t1 hc k, hrm])]
    exact ho
  · intro h hk
    refine ⟨?_, ?_, ?_⟩
    · unfold Tx.borrow Tx.state
      rw [hk, if_pos hrm]
    · unfold Tx.delete Tx.state setCellState cellState
      rw [hk]
      simp [List.getElem?_set_self, hlen]
    · unfold Tx.borrow_mut Tx.state setCellState cellState
      rw [hk]
      simp [List.getElem?_set_self, hlen]

/-- C3 witness: with identity 1 tracked Removed at cell 0, get fails with
NotFound and a borrow through a handle over cell 0 fails. -/
theorem c3_removed_terminal_witness :
    (Transaction.get B0 sch0 1 t1r).2 = Outcome.fail (Error.notFound 1 sch0.type_name) ∧
      Tx.borrow t1r (Handle.mk 1 0) = Outcome.panicked :=
  ⟨(c3_removed_terminal B0 sch0 1 0 t1r (by decide) (by decide) (by decide)).1,
    ((c3_removed_terminal B0 sch0 1 0 t1r (by decide) (by decide) (by decide)).2.2.2
      (Handle.mk 1 0) rfl).1⟩

/-- C3 counterexample: with the tracked entry for identity 1 in Removed
state, borrow_mut — one of the operations the claim lists — transitions the
entry back to Modified, refuting that no subsequent operation transitions a
Removed entry to Clean or Modified. -/
theorem c3_counterexample :
    cellState t1r 0 = ObjectState.Removed ∧
      Tx.state (Tx.borrow_mut t1r (Handle.mk 1 0)).1 (Handle.mk 1 0)
        = ObjectState.Modified := by
  decide

/-! ## C2: dirty-flush precision -/

theorem tryApplyGo_spec (B : Backend) :
    ∀ (es : List ((Schema × Int) × Nat)) (t : TxM),
      (tryApplyGo B es t).1.cells = t.cells ∧
      (tryApplyGo B es t).1.objects = t.objects ∧
      ((tryApplyGo B es t).2 = Outcome.ok () →
        (tryApplyGo B es t).1.trace = t.trace ++ es.filterMap (flushCall t)) ∧
      ((tryApplyGo B es t).2 ≠ Outcome.ok () →
        ∃ d, d <+: es.filterMap (flushCall t) ∧
          (tryApplyGo B es t).1.trace = t.trace ++ d) := by
  intro es
  induction es with
  | nil =>
    intro t
    exact ⟨rfl, rfl, fun _ => by simp [tryApplyGo],
      fun hne => absurd rfl hne⟩
  | cons e rest ih =>
    intro t
    obtain ⟨⟨sch, i⟩, k⟩ := e
    cases hst : cellState t k with
    | Clean =>
      have hfc : flushCall t ((sch, i), k) = none := by
        unfold flushCall
        rw [hst]
      have hred : tryApplyGo B (((sch, i), k) :: rest) t = tryApplyGo B rest t := by
        simp only [tryApplyGo, hst]
      rw [hred]
      simp only [List.filterMap_cons, hfc]
      exact ih t
    | Modified =>
      have hsome : flushCall t ((sch, i), k)
          = some (BOp.updateOp i sch (cellObj t k)) := by
        unfold flushCall
        rw [hst]
      cases hbu : B.update_row i sch (cellObj t k) with
      | ok u =>
        have hcall : callUpdate B i sch (cellObj t k) t
            = ({ t with trace := t.trace ++ [BOp.updateOp i sch (cellObj t k)] },
              Outcome.ok ()) := by
          unfold callUpdate
          rw [hbu]
        have hred : tryApplyGo B (((sch, i), k) :: rest) t
            = tryApplyGo B rest
                { t with trace := t.trace ++ [BOp.updateOp i sch (cellObj t k)] } := by
          simp only [tryApplyGo, hst, hcall]
        rw [hred]
        have hrec := ih { t with trace := t.trace ++ [BOp.updateOp i sch (cellObj t k)] }
        have hfun : flushCall
            { t with trace := t.trace ++ [BOp.updateOp i sch (cellObj t k)] }
            = flushCall t := rfl
        rw [hfun] at hrec
        refine ⟨hrec.1, hrec.2.1, ?_, ?_⟩
        · intro hok
          rw [hrec.2.2.1 hok]
          simp [List.filterMap_cons, hsome]
        · intro hne
          obtain ⟨d, hp, htr⟩ := hrec.2.2.2 hne
          obtain ⟨s, hs⟩ := hp
          refine ⟨BOp.updateOp i sch (cellObj t k) :: d, ⟨s, ?_⟩, ?_⟩
          · simp [List.filterMap_cons, hsome, hs]
          · rw [htr]
            simp
      | error err =>
        have hcall : callUpdate B i sch (cellObj t k) t
            = ({ t with trace := t.trace ++ [BOp.updateOp i sch (cellObj t k)] },
              Outcome.fail err) := by
          unfold callUpdate
          rw [hbu]
        have hred : tryApplyGo B (((sch, i), k) :: rest) t
            = ({ t with trace := t.trace ++ [BOp.updateOp i sch (cellObj t k)] },
              Outcome.fail err) := by
          simp only [tryApplyGo, hst, hcall]
        rw [hred]
        refine ⟨rfl, rfl, fun hok => by simp at hok, fun _ => ?_⟩
        refine ⟨[BOp.updateOp i sch (cellObj t k)], ?_, by simp⟩
        simp only [List.filterMap_cons, hsome]
        exact ⟨_, rfl⟩
    | Removed =>
      have hsome : flushCall t ((sch, i), k) = some (BOp.deleteOp i sch) := by
        unfold flushCall
        rw [hst]
      cases hbd : B.delete_row i sch with
      | ok u =>
        have hcall : callDelete B i sch t
            = ({ t with trace := t.trace ++ [BOp.deleteOp i sch] },
              Outcome.ok ()) := by
          unfold callDelete
          rw [hbd]
        have hred : tryApplyGo B (((sch, i), k) :: rest) t
            = tryApplyGo B rest
                { t with trace := t.trace ++ [BOp.deleteOp i sch] } := by
          simp only [tryApplyGo, hst, hcall]
        rw [hred]
        have hrec := ih { t with trace := t.trace ++ [BOp.deleteOp i sch] }
        have hfun : flushCall { t with trace := t.trace ++ [BOp.deleteOp i sch] }
            = flushCall t := rfl
        rw [hfun] at hrec
        refine ⟨hrec.1, hrec.2.1, ?_, ?_⟩
        · intro hok
          rw [hrec.2.2.1 hok]
          simp [List.filterMap_cons, hsome]
        · intro hne
          obtain ⟨d, hp, htr⟩ := hrec.2.2.2 hne
          obtain ⟨s, hs⟩ := hp
          refine ⟨BOp.deleteOp i sch :: d, ⟨s, ?_⟩, ?_⟩
          · simp [List.filterMap_cons, hsome, hs]
          · rw [htr]
            simp
      | error err =>
        have hcall : callDelete B i sch t
            = ({ t with trace := t.trace ++ [BOp.deleteOp i sch] },
              Outcome.fail err) := by
          unfold callDelete
          rw [hbd]
        have hred : tryApplyGo B (((sch, i), k) :: rest) t
            = ({ t with trace := t.trace ++ [BOp.deleteOp i sch] },
              Outcome.fail err) := by
          simp only [tryApplyGo, hst, hcall]
        rw [hred]
        refine ⟨rfl, rfl, fun hok => by simp at hok, fun _ => ?_⟩
        refine ⟨[BOp.deleteOp i sch], ?_, by simp⟩
        simp only [List.filterMap_cons, hsome]
        exact ⟨_, rfl⟩

theorem flushOps_counts (t : TxM) (l : List ((Schema × Int) × Nat)) :
    ((l.filterMap (flushCall t)).countP (fun op => match op with
        | BOp.updateOp _ _ _ => true
        | _ => false)
      = l.countP (fun e => cellState t e.2 == ObjectState.Modified)) ∧
    ((l.filterMap (flushCall t)).countP (fun op => match op with
        | BOp.deleteOp _ _ => true
        | _ => false)
      = l.countP (fun e => cellState t e.2 == ObjectState.Removed)) ∧
    ((l.filterMap (flushCall t)).length
      = l.countP (fun e => !(cellState t e.2 == ObjectState.Clean))) := by
  induction l with
  | nil => exact ⟨rfl, rfl, rfl⟩
  | cons e rest ih =>
    cases hst : cellState t e.2 with
    | Clean =>
      have hfc : flushCall t e = none := by
        unfold flushCall
        rw [hst]
      simp [List.filterMap_cons, hfc, List.countP_cons, hst, ih.1, ih.2.1, ih.2.2]
    | Modified =>
      have hfc : flushCall t e = some (BOp.updateOp e.1.2 e.1.1 (cellObj t e.2)) := by
        unfold flushCall
        rw [hst]
      simp [List.filterMap_cons, hfc, List.countP_cons, hst, ih.1, ih.2.1, ih.2.2]
    | Removed =>
      have hfc : flushCall t e = some (BOp.deleteOp e.1.2 e.1.1) := by
        unfold flushCall
        rw [hst]
      simp [List.filterMap_cons, hfc, List.countP_cons, hst, ih.1, ih.2.1, ih.2.2]

theorem commitOp_not_mem_prefix (t : TxM) (d : List BOp) (hp : d <+: flushOps t) :
    BOp.commitOp ∉ d := by
  intro hmem
  have hmem2 : BOp.commitOp ∈ flushOps t := hp.subset hmem
  obtain ⟨e, he, hfc⟩ := List.mem_filterMap.mp hmem2
  unfold flushCall at hfc
  cases hst : cellState t e.2 <;> rw [hst] at hfc <;> simp at hfc

/-- C2 (confirmed): commit iterates the tracked entries and issues exactly
one backend update per Modified entry (with its current record row) and one
backend delete per Removed entry, in tracking order, with Clean entries
issuing nothing; the backend commit call is issued exactly when every flush
succeeded, and a failed flush stops the iteration with no commit issued. -/
theorem c2_dirty_flush_precision (B : Backend) (t : TxM) :
    ((Transaction.try_apply B t).2 = Outcome.ok () →
      (Transaction.commit B t).1.trace = t.trace ++ flushOps t ++ [BOp.commitOp]) ∧
    ((Transaction.try_apply B t).2 ≠ Outcome.ok () →
      ∃ d, d <+: flushOps t ∧ (Transaction.commit B t).1.trace = t.trace ++ d ∧
        BOp.commitOp ∉ d) ∧
    ((flushOps t).countP (fun op => match op with
        | BOp.updateOp _ _ _ => true
        | _ => false)
      = t.objects.countP (fun e => cellState t e.2 == ObjectState.Modified)) ∧
    ((flushOps t).countP (fun op => match op with
        | BOp.deleteOp _ _ => true
        | _ => false)
      = t.objects.countP (fun e => cellState t e.2 == ObjectState.Removed)) ∧
    ((flushOps t).length
      = t.objects.countP (fun e => !(cellState t e.2 == ObjectState.Clean))) := by
  have hs := tryApplyGo_spec B t.objects t
  refine ⟨?_, ?_, (flushOps_counts t t.objects).1, (flushOps_counts t t.objects).2.1,
    (flushOps_counts t t.objects).2.2⟩
  · intro hok
    rcases hta : Transaction.try_apply B t with ⟨t1, r⟩
    have hta2 : tryApplyGo B t.objects t = (t1, r) := hta
    rw [hta] at hok
    simp only at hok
    rw [hta2] at hs
    simp only at hs
    have htr : t1.trace = t.trace ++ flushOps t := hs.2.2.1 hok
    unfold Transaction.commit
    rw [hta, hok]
    unfold callCommit
    cases B.commitB <;> simp [htr, List.append_assoc]
  · intro hne
    rcases hta : Transaction.try_apply B t with ⟨t1, r⟩
    have hta2 : tryApplyGo B t.objects t = (t1, r) := hta
    rw [hta] at hne
    simp only at hne
    rw [hta2] at hs
    simp only at hs
    obtain ⟨d, hp, htr⟩ := hs.2.2.2 hne
    refine ⟨d, hp, ?_, commitOp_not_mem_prefix t d hp⟩
    unfold Transaction.commit
    rw [hta]
    cases r with
    | ok u =>
      cases u
      exact absurd rfl hne
    | fail e => exact htr
    | panicked => exact htr

/-- C2 witness: over a transaction tracking one Clean, one Modified and one
Removed entry with an all-succeeding backend, commit issues exactly the
update for the Modified entry, the delete for the Removed entry, and then
the backend commit. -/
theorem c2_dirty_flush_precision_witness :
    (Transaction.commit B0 tc).1.trace = tc.trace ++ flushOps tc ++ [BOp.commitOp] :=
  (c2_dirty_flush_precision B0 tc).1 (by decide)

end LiteOrm
